import Mathlib

/-!
Shallow embedding of the terminal-session engine of the repository
(the Terminal React component: input state machine, command router,
local command handlers, remote dispatch and history persistence),
together with theorems checking the specification's claims against it.

Machine-level JavaScript details are modelled explicitly:
string truthiness of `||` is `jsOrStr`, nullish coalescing `??` is
`Option.getD`, and the `Date` value carried by a history entry is its
broken-down UTC form (the form `Date.prototype.toISOString` prints).
-/

namespace Terminal

/-- Broken-down UTC instant, the information content of a JS `Date`
(millisecond precision), as printed by `toISOString`. -/
structure DateTime where
  year : Nat
  month : Nat
  day : Nat
  hour : Nat
  minute : Nat
  second : Nat
  ms : Nat
deriving DecidableEq, Repr

/-- Field ranges under which a `DateTime` is a valid (printable and
re-parseable) JS date: the four-digit-year range of `toISOString`. -/
def validDateTime (d : DateTime) : Prop :=
  d.year < 10000 ∧ 1 ≤ d.month ∧ d.month ≤ 12 ∧ 1 ≤ d.day ∧ d.day ≤ 31 ∧
    d.hour < 24 ∧ d.minute < 60 ∧ d.second < 60 ∧ d.ms < 1000

instance (d : DateTime) : Decidable (validDateTime d) := by
  unfold validDateTime; infer_instance

/-- `interface CommandHistory { command; output; timestamp }`. -/
structure HistoryEntry where
  command : String
  output : String
  timestamp : DateTime
deriving DecidableEq, Repr

def NEOFETCH_OUTPUT : String :=
"                    \n                 ----                         web-user@terminal\n        ===      ====      ===                ---------------\n       ====      ====      ====               OS: Kubernetes \n        ====     ====     ====                Host: Terminal Web App\n        +++++    ++++    +++++                Kernel: Next.js 14\n+++      ++++    ++++    ++++      +++        Uptime: Just started\n+++++     ++++   ++++   ++++     +++++        Packages: npm + pip\n +++++*   ++++   ++++   ++++   *+++++         Shell: web-terminal\n   *****  *****  ****  *****  *****           Resolution: Browser\n    *****  ****  ****  ****  *****            DE: Web Browser\n     ****  ****  ****  ****  ****             WM: Not applicable\n      ***  ****  ****  ****  ***              Theme: Dark\n     ****  ****  ****  ****  ****             Icons: Terminal\n    *****  ****  ****  ****  *****            Font: Courier New\n   ****#  #****  ****  *****  #****#          CPU: Browser Engine\n #***##   #***   ***#   #***   ##***#         GPU: WebGL\n#####     ####   ####   ####     #####        Memory: Dynamic\n###      ####    ####    ####      ###                 \n        #####    ####    #####                         \n        ####     ####     ####                         \n       ####      ####      ####                        \n        ###      ####      ###                         \n                 ####                                  \n                                \nWelcome to the Terminal\n"

def HELP_TEXT : String :=
"Available commands:\n  help               - Show this help message\n  clear              - Clear the terminal\n  date               - Show current date and time\n  whoami             - Show current user\n  echo <text>        - Echo text back\n  ls                 - List files (simulated)\n  pwd                - Print working directory\n  history            - Show command history\n  neofetch           - Display system information\n  about              - Show information about this terminal\n  weather [location] - Fetch weather information for a location\n  exit               - Exit the terminal (reloads page)\n\nType a command and press Enter to execute."

def LS_OUTPUT : String :=
"bin  boot  dev  etc  home  lib  media  mnt  opt  proc  root  run  sbin  srv  sys  tmp  usr  var"


/-- JS `String.prototype.trim`: strip leading and trailing whitespace
(modelled character-wise, structurally, over the common whitespace
set). -/
def jsTrim (s : String) : String :=
  String.mk (((s.data.dropWhile Char.isWhitespace).reverse.dropWhile Char.isWhitespace).reverse)

/-- JS `String.prototype.startsWith` (character-wise). -/
def jsStartsWith (s pre : String) : Bool := pre.data.isPrefixOf s.data

/-- JS `String.prototype.substring(n)` (character-wise). -/
def jsDrop (s : String) (n : Nat) : String := String.mk (s.data.drop n)

/-- JS string truthiness: `null`/`undefined` and `""` are falsy. -/
def jsTruthy : Option String → Bool
  | some t => t != ""
  | none => false

/-- JS `a || b` on an optional string `a`: keeps `a` when truthy. -/
def jsOrStr : Option String → String → String
  | some t, b => if t = "" then b else t
  | none, b => b

/-- Outcome of the axios POST to the execute endpoint: a response
(`response.data.output` / `response.data.error`), an HTTP error
(`error.response.status` / `error.response.data.detail`), or a
client-side network error (`error.message`). -/
inductive RemoteOutcome where
  | success (output : Option String) (error : Option String)
  | httpError (status : Nat) (detail : Option String)
  | networkError (message : Option String)
deriving DecidableEq, Repr

/-- The string assigned to `output` in the remote branch of
`executeCommand`: the success line
`response.data.output || response.data.error || 'Command executed'`
and the `catch` block mapping status classes to `Error: ...` strings. -/
def remoteOutput : RemoteOutcome → String
  | .success out err => jsOrStr out (jsOrStr err "Command executed")
  | .httpError status detail =>
      if status = 400 ∨ status = 422 then "Error: " ++ jsOrStr detail "Invalid input provided"
      else if status = 500 then "Error: " ++ jsOrStr detail "Internal server error"
      else "Error: " ++ jsOrStr detail "An error occurred"
  | .networkError msg => "Error: " ++ jsOrStr msg "Failed to connect to server"

/-- Ambient values read by one call of `executeCommand`: the wall clock
(`new Date()` / `toLocaleString`), the `backendVersion` state, and the
outcome the backend call would have for this submission. -/
structure Env where
  dateStr : String
  backendVersion : Option String
  remote : RemoteOutcome
  now : DateTime
deriving Repr

/-- The React state of the component that the claims are about:
`history`, `currentInput`, `historyIndex`, `displayStartIndex`. -/
structure TerminalState where
  history : List HistoryEntry
  currentInput : String
  historyIndex : Int
  displayStartIndex : Nat
deriving DecidableEq, Repr

/-- `history.filter((h) => h.command).map((h) => h.command)`: the
non-empty (real) commands, oldest first. -/
def nonEmptyCommands (hist : List HistoryEntry) : List String :=
  (hist.filter (fun h => h.command != "")).map (fun h => h.command)

/-- Output of the local `history` command:
numbered non-empty commands joined by newlines, `|| 'No history'`. -/
def historyCmdOutput (hist : List HistoryEntry) : String :=
  let lines := (nonEmptyCommands hist).enum.map (fun p => toString (p.1 + 1) ++ "  " ++ p.2)
  let joined := String.intercalate "\n" lines
  if joined = "" then "No history" else joined

/-- Output of the local `neofetch` command: logo plus
`backendVersion ? \nVersion: ... : ''`. -/
def neofetchCmdOutput (backendVersion : Option String) : String :=
  let versionText := if jsTruthy backendVersion then "\nVersion: " ++ backendVersion.getD "" else ""
  NEOFETCH_OUTPUT ++ versionText

/-- Output of the local `about` command (`??` is nullish coalescing). -/
def aboutCmdOutput (backendVersion : Option String) : String :=
  "Terminal Web Application\nBuilt with Next.js, FastAPI, and PostgreSQL\nRunning on Kubernetes with ArgoCD\nVersion: " ++
    backendVersion.getD "unknown (backend version not available)"

/-- What one branch of `executeCommand` does after the empty-input
check: append an entry with some output, clear the whole history
(`clear`), or reload the page (`exit`). -/
inductive ExecAction where
  | append (output : String)
  | clearHistory
  | reload
deriving DecidableEq, Repr

/-- The `if/else` chain of `executeCommand` on the trimmed command, in
source order; the final `else` is the backend dispatch. -/
def dispatch (env : Env) (hist : List HistoryEntry) (trimmedCommand : String) : ExecAction :=
  if trimmedCommand = "clear" then .clearHistory
  else if trimmedCommand = "help" then .append HELP_TEXT
  else if trimmedCommand = "date" then .append env.dateStr
  else if trimmedCommand = "whoami" then .append "web-user"
  else if jsStartsWith trimmedCommand "echo " then .append (jsDrop trimmedCommand 5)
  else if trimmedCommand = "ls" then .append LS_OUTPUT
  else if trimmedCommand = "pwd" then .append "/home/web-user"
  else if trimmedCommand = "history" then .append (historyCmdOutput hist)
  else if trimmedCommand = "neofetch" then .append (neofetchCmdOutput env.backendVersion)
  else if trimmedCommand = "about" then .append (aboutCmdOutput env.backendVersion)
  else if trimmedCommand = "exit" then .reload
  else .append (remoteOutput env.remote)

/-- `executeCommand(command)`, with the remote call already resolved to
`env.remote` (the synchronous view; overlap of in-flight calls is
modelled separately by `SessionState`). -/
def executeCommand (env : Env) (st : TerminalState) (command : String) : TerminalState :=
  let trimmedCommand := jsTrim command
  if trimmedCommand = "" then
    { st with history := st.history ++ [{ command := "", output := HELP_TEXT, timestamp := env.now }] }
  else
    match dispatch env st.history trimmedCommand with
    | .clearHistory => { st with history := [], displayStartIndex := 0 }
    | .reload => st
    | .append output =>
        { st with history := st.history ++ [{ command := trimmedCommand, output := output, timestamp := env.now }] }

/-- Holds iff the trimmed command reaches the final `else` of
`executeCommand`, i.e. is forwarded to the backend. -/
def isRemoteDispatch (t : String) : Prop :=
  t ≠ "" ∧ t ≠ "clear" ∧ t ≠ "help" ∧ t ≠ "date" ∧ t ≠ "whoami" ∧
    jsStartsWith t "echo " = false ∧ t ≠ "ls" ∧ t ≠ "pwd" ∧ t ≠ "history" ∧
    t ≠ "neofetch" ∧ t ≠ "about" ∧ t ≠ "exit"

instance (t : String) : Decidable (isRemoteDispatch t) := by
  unfold isRemoteDispatch; infer_instance

/-! ### Keyboard handling (`handleKeyDown`) -/

/-- The `ArrowUp` branch of `handleKeyDown`: history navigation over
the non-empty commands, newest loaded first, stopping at the oldest. -/
def navigateUp (st : TerminalState) : TerminalState :=
  let commands := nonEmptyCommands st.history
  if commands.length = 0 then st
  else if st.historyIndex = -1 then
    { st with historyIndex := (commands.length : Int) - 1,
              currentInput := commands.getD (commands.length - 1) "" }
  else if st.historyIndex > 0 then
    let newIndex := st.historyIndex - 1
    { st with historyIndex := newIndex, currentInput := commands.getD newIndex.toNat "" }
  else st

/-- The `ArrowDown` branch of `handleKeyDown`. -/
def navigateDown (st : TerminalState) : TerminalState :=
  let commands := nonEmptyCommands st.history
  if commands.length = 0 ∨ st.historyIndex = -1 then
    { st with currentInput := "" }
  else if st.historyIndex < (commands.length : Int) - 1 then
    let newIndex := st.historyIndex + 1
    { st with historyIndex := newIndex, currentInput := commands.getD newIndex.toNat "" }
  else
    { st with currentInput := "", historyIndex := -1 }

/-- The `Enter` branch of `handleKeyDown`: run `executeCommand` on the
current input, then clear the buffer and reset the history index. -/
def enterKey (env : Env) (st : TerminalState) : TerminalState :=
  let st1 := executeCommand env st st.currentInput
  { st1 with currentInput := "", historyIndex := -1 }

/-- The `Ctrl+L` branch of `handleKeyDown`: hide the rendered history
without deleting it. -/
def ctrlLKey (st : TerminalState) : TerminalState :=
  { st with displayStartIndex := st.history.length }

/-- A user interaction the claims quantify over: typing into the input
(the `onChange` handler) or one of the `handleKeyDown` branches. -/
inductive UIEvent where
  | input (s : String)
  | enter (env : Env)
  | up
  | down
  | ctrlL

/-- One step of the UI loop. -/
def uiStep (e : UIEvent) (st : TerminalState) : TerminalState :=
  match e with
  | .input s => { st with currentInput := s }
  | .enter env => enterKey env st
  | .up => navigateUp st
  | .down => navigateDown st
  | .ctrlL => ctrlLKey st

/-- Run a sequence of user interactions. -/
def uiRun (es : List UIEvent) (st : TerminalState) : TerminalState :=
  es.foldl (fun s e => uiStep e s) st

/-- The component's initial state: empty history, empty buffer,
`historyIndex = -1`, `displayStartIndex = 0`. -/
def initState : TerminalState :=
  { history := [], currentInput := "", historyIndex := -1, displayStartIndex := 0 }

/-! ### Overlapping submissions

`executeCommand` is `async`: a backend-routed submission suspends at
the `await` and appends its entry only when the POST resolves, through
a functional `setHistory` update.  `SessionState` makes the in-flight
calls explicit so that interleavings of submissions and resolutions
can be quantified over. -/

/-- An in-flight POST to the execute endpoint. -/
structure PendingCall where
  id : Nat
  command : String
  outcome : RemoteOutcome
deriving DecidableEq, Repr

/-- Terminal state plus the set of in-flight backend calls. -/
structure SessionState where
  term : TerminalState
  pending : List PendingCall
  nextId : Nat
deriving Repr

/-- Submit a line: a backend-routed command only registers an in-flight
call; everything else completes synchronously via `executeCommand`. -/
def submitStep (env : Env) (cmd : String) (s : SessionState) : SessionState :=
  let t := jsTrim cmd
  if isRemoteDispatch t then
    { s with pending := s.pending ++ [{ id := s.nextId, command := t, outcome := env.remote }],
             nextId := s.nextId + 1 }
  else
    { s with term := executeCommand env s.term cmd }

/-- The continuation after `await` resolves for call `i`: append the
entry built from the response, at resolution time `now`. -/
def resolveStep (i : Nat) (now : DateTime) (s : SessionState) : SessionState :=
  match s.pending.find? (fun p => p.id = i) with
  | none => s
  | some p =>
      { s with
          term := { s.term with
                      history := s.term.history ++
                        [{ command := p.command, output := remoteOutput p.outcome, timestamp := now }] },
          pending := s.pending.filter (fun q => q.id != i) }

/-- An event of the cooperative UI loop with overlap: a submission or
the resolution of an in-flight call. -/
inductive SessionEvent where
  | submit (env : Env) (cmd : String)
  | resolve (i : Nat) (now : DateTime)

/-- One scheduler step. -/
def sessionStep (e : SessionEvent) (s : SessionState) : SessionState :=
  match e with
  | .submit env cmd => submitStep env cmd s
  | .resolve i now => resolveStep i now s

/-- Run a schedule of submissions and resolutions. -/
def sessionRun (es : List SessionEvent) (s : SessionState) : SessionState :=
  es.foldl (fun s e => sessionStep e s) s

/-- Fresh session: initial component state, no in-flight calls. -/
def initSession : SessionState :=
  { term := initState, pending := [], nextId := 0 }

/-! ### History persistence (localStorage round trip)

The persist effect serializes every entry as
`{ command, output, timestamp: h.timestamp.toISOString() }`; the load
effect maps the parsed records back with `new Date(h.timestamp)`.
`toISOString` prints the broken-down UTC instant in the fixed 24-char
form `YYYY-MM-DDTHH:MM:SS.mmmZ`; `new Date` on such a string
reconstructs the instant. -/

/-- The character for a decimal digit. -/
def digitChar (n : Nat) : Char := Char.ofNat (48 + n)

/-- The decimal digit of a character. -/
def charDigit (c : Char) : Nat := c.toNat - 48

/-- Two-digit zero-padded decimal. -/
def pad2 (n : Nat) : List Char := [digitChar (n / 10 % 10), digitChar (n % 10)]

/-- Three-digit zero-padded decimal. -/
def pad3 (n : Nat) : List Char := [digitChar (n / 100 % 10), digitChar (n / 10 % 10), digitChar (n % 10)]

/-- Four-digit zero-padded decimal. -/
def pad4 (n : Nat) : List Char :=
  [digitChar (n / 1000 % 10), digitChar (n / 100 % 10), digitChar (n / 10 % 10), digitChar (n % 10)]

/-- The characters `Date.prototype.toISOString` prints. -/
def isoChars (d : DateTime) : List Char :=
  pad4 d.year ++ '-' :: pad2 d.month ++ '-' :: pad2 d.day ++ 'T' :: pad2 d.hour ++
    ':' :: pad2 d.minute ++ ':' :: pad2 d.second ++ '.' :: pad3 d.ms ++ ['Z']

/-- `Date.prototype.toISOString`. -/
def toISOString (d : DateTime) : String := String.mk (isoChars d)

/-- Parsing of the 24-char ISO form by the `Date` constructor:
anything of another shape or out of range is an invalid date. -/
def parseISOChars : List Char → Option DateTime
  | [y1, y2, y3, y4, '-', mo1, mo2, '-', d1, d2, 'T', h1, h2, ':', mi1, mi2, ':',
      s1, s2, '.', x1, x2, x3, 'Z'] =>
    if ([y1, y2, y3, y4, mo1, mo2, d1, d2, h1, h2, mi1, mi2, s1, s2, x1, x2, x3].all Char.isDigit) then
      let dt : DateTime :=
        { year := ((charDigit y1 * 10 + charDigit y2) * 10 + charDigit y3) * 10 + charDigit y4,
          month := charDigit mo1 * 10 + charDigit mo2,
          day := charDigit d1 * 10 + charDigit d2,
          hour := charDigit h1 * 10 + charDigit h2,
          minute := charDigit mi1 * 10 + charDigit mi2,
          second := charDigit s1 * 10 + charDigit s2,
          ms := (charDigit x1 * 10 + charDigit x2) * 10 + charDigit x3 }
      if validDateTime dt then some dt else none
    else none
  | _ => none

/-- `new Date(isoText)` on a string. -/
def parseISO (s : String) : Option DateTime := parseISOChars s.data

/-- The invalid-date value a failed `new Date(string)` yields. -/
def invalidDate : DateTime :=
  { year := 0, month := 0, day := 0, hour := 0, minute := 0, second := 0, ms := 0 }

/-- The record shape written to `localStorage` for one entry. -/
structure StoredEntry where
  command : String
  output : String
  timestamp : String
deriving DecidableEq, Repr

/-- The persist effect: `history.map` to serializable records. -/
def persistHistory (hist : List HistoryEntry) : List StoredEntry :=
  hist.map (fun h => { command := h.command, output := h.output, timestamp := toISOString h.timestamp })

/-- The load effect: `parsed.map` back to entries, `new Date` on the
stored timestamp string. -/
def loadHistory (stored : List StoredEntry) : List HistoryEntry :=
  stored.map (fun s =>
    { command := s.command, output := s.output, timestamp := (parseISO s.timestamp).getD invalidDate })

/-! ### Remote Execution Service: the weather command

The FastAPI backend is not part of the checked sources; only its
behaviour is documented.  The definitions below are therefore spec
models, not embeddings of backend code. -/

/-- Characters the backend accepts in a location parameter. -/
def isAllowedLocChar (c : Char) : Bool :=
  c.isAlpha || c.isDigit || c == ' ' || c == '-' || c == ','

/-- `CommandResult`: `{ output: string|null, error: string|null }`. -/
structure CommandResult where
  output : Option String
  error : Option String
deriving DecidableEq, Repr

/-- Modelled from the spec: validation and provider call for a present
location parameter (whitelisted characters — letters, digits, spaces,
hyphens, commas — and length at most 100; a provider failure becomes a
friendly error string, never an exception). -/
def weatherLookup (loc : String) (provider : String → Option String) : CommandResult :=
  if loc.length > 100 ∨ ¬ (loc.data.all isAllowedLocChar) then
    { output := none, error := some "Invalid location" }
  else
    match provider loc with
    | some text => { output := some text, error := none }
    | none => { output := none, error := some "Weather service is currently unavailable" }

/-- Modelled from the spec: the backend handler of the `weather`
command (FastAPI `main.py`, absent from the checked sources).  A
missing location falls back to the deployment default when one is
configured and otherwise returns the usage string as a successful
result; a present location is validated (whitelisted characters,
length at most 100) before the single provider call. -/
def weatherCommand (defaultLocation : Option String) (arg : Option String)
    (provider : String → Option String) : CommandResult :=
  match arg with
  | none =>
      match defaultLocation with
      | some loc => weatherLookup loc provider
      | none => { output := some "Usage: weather [location]\nExample: weather London", error := none }
  | some loc => weatherLookup loc provider

/-! ### Sample fixtures for concrete evaluations -/

/-- A concrete valid instant. -/
def sampleDate : DateTime :=
  { year := 2025, month := 1, day := 15, hour := 10, minute := 30, second := 0, ms := 0 }

/-- A later concrete valid instant. -/
def sampleDateLater : DateTime :=
  { year := 2025, month := 1, day := 15, hour := 10, minute := 30, second := 1, ms := 500 }

/-- A concrete ambient environment with a successful backend response. -/
def env0 : Env :=
  { dateStr := "1/15/2025, 10:30:00 AM", backendVersion := some "1.0.0",
    remote := RemoteOutcome.success (some "pong") none, now := sampleDate }

/-- A concrete environment whose backend call yields response `A`. -/
def envA : Env := { env0 with remote := RemoteOutcome.success (some "A") none }

/-- A concrete environment whose backend call yields response `B`. -/
def envB : Env := { env0 with remote := RemoteOutcome.success (some "B") none }


/-- A concrete environment whose backend call fails with HTTP 500. -/
def env500 : Env := { env0 with remote := RemoteOutcome.httpError 500 (some "Internal server error") }

/-- A concrete environment whose backend response has null output and
null error. -/
def envNull : Env := { env0 with remote := RemoteOutcome.success none none }

/-- A concrete history entry. -/
def sampleEntry : HistoryEntry := { command := "ls", output := LS_OUTPUT, timestamp := sampleDate }

/-- A concrete state with two real commands and one synthetic help
entry in between. -/
def navSt : TerminalState :=
  { initState with history :=
      [{ command := "alpha", output := "ok", timestamp := sampleDate },
       { command := "", output := HELP_TEXT, timestamp := sampleDate },
       { command := "beta", output := "ok", timestamp := sampleDateLater }] }

/-- The cursor invariant of the input state machine: either not
navigating, or pointing into the sequence of non-empty commands. -/
def cursorOK (st : TerminalState) : Prop :=
  st.historyIndex = -1 ∨
    (0 ≤ st.historyIndex ∧
      st.historyIndex < ((nonEmptyCommands st.history).length : Int))

/-! ### Helper lemmas about the command router -/

/-- A trimmed command that is neither `clear` nor `exit` resolves to an
appended output. -/
theorem dispatch_append (env : Env) (hist : List HistoryEntry) (t : String)
    (h1 : t ≠ "clear") (h2 : t ≠ "exit") :
    ∃ out, dispatch env hist t = ExecAction.append out := by
  unfold dispatch
  rw [if_neg h1]
  rcases eq_or_ne t "help" with h | h
  · rw [if_pos h]; exact ⟨_, rfl⟩
  rw [if_neg h]
  rcases eq_or_ne t "date" with h3 | h3
  · rw [if_pos h3]; exact ⟨_, rfl⟩
  rw [if_neg h3]
  rcases eq_or_ne t "whoami" with h4 | h4
  · rw [if_pos h4]; exact ⟨_, rfl⟩
  rw [if_neg h4]
  by_cases h5 : jsStartsWith t "echo "
  · rw [if_pos h5]; exact ⟨_, rfl⟩
  rw [if_neg h5]
  rcases eq_or_ne t "ls" with h6 | h6
  · rw [if_pos h6]; exact ⟨_, rfl⟩
  rw [if_neg h6]
  rcases eq_or_ne t "pwd" with h7 | h7
  · rw [if_pos h7]; exact ⟨_, rfl⟩
  rw [if_neg h7]
  rcases eq_or_ne t "history" with h8 | h8
  · rw [if_pos h8]; exact ⟨_, rfl⟩
  rw [if_neg h8]
  rcases eq_or_ne t "neofetch" with h9 | h9
  · rw [if_pos h9]; exact ⟨_, rfl⟩
  rw [if_neg h9]
  rcases eq_or_ne t "about" with h10 | h10
  · rw [if_pos h10]; exact ⟨_, rfl⟩
  rw [if_neg h10, if_neg h2]
  exact ⟨_, rfl⟩

/-- A backend-routed command resolves to the remote output. -/
theorem dispatch_of_remote (env : Env) (hist : List HistoryEntry) (t : String)
    (h : isRemoteDispatch t) :
    dispatch env hist t = ExecAction.append (remoteOutput env.remote) := by
  obtain ⟨h1, h2, h3, h4, h5, h6, h7, h8, h9, h10, h11, h12⟩ := h
  unfold dispatch
  rw [if_neg h2, if_neg h3, if_neg h4, if_neg h5,
    if_neg (by rw [h6]; exact Bool.false_ne_true),
    if_neg h7, if_neg h8, if_neg h9, if_neg h10, if_neg h11, if_neg h12]

/-- `executeCommand` on a backend-routed command appends the entry
built from the resolved remote outcome. -/
theorem executeCommand_remote (env : Env) (st : TerminalState) (cmd : String)
    (h : isRemoteDispatch (jsTrim cmd)) :
    executeCommand env st cmd =
      { st with history := st.history ++
          [{ command := jsTrim cmd, output := remoteOutput env.remote, timestamp := env.now }] } := by
  unfold executeCommand
  rw [if_neg h.1, dispatch_of_remote env st.history (jsTrim cmd) h]

/-- For an always-falsy response output, the recorded output is the
error text when truthy and `Command executed` otherwise. -/
theorem remoteOutput_success_falsy (out err : Option String)
    (hout : out = none ∨ out = some "") :
    remoteOutput (RemoteOutcome.success out err) =
      if jsTruthy err then err.getD "" else "Command executed" := by
  have hstep : jsOrStr err "Command executed" =
      if jsTruthy err then err.getD "" else "Command executed" := by
    cases err with
    | none => rfl
    | some e => by_cases he : e = "" <;> simp [jsOrStr, jsTruthy, he]
  rcases hout with h | h <;> rw [h] <;> simpa [remoteOutput, jsOrStr] using hstep
/-! ### Claims C2, C4, C5, C6, C9, C10 -/

/-- C4: submitting a line whose trimmed text is empty appends the
synthetic help entry with empty command and `HELP_TEXT` output (which
begins with `Available commands:`), for every ambient environment —
in particular independently of the backend outcome, so the router and
remote dispatch are never consulted. -/
theorem c4_blank_submit_shows_help (env : Env) (st : TerminalState) (cmd : String)
    (h : jsTrim cmd = "") :
    (executeCommand env st cmd).history =
      st.history ++ [{ command := "", output := HELP_TEXT, timestamp := env.now }] ∧
    jsStartsWith HELP_TEXT "Available commands:" = true := by
  refine ⟨?_, by decide⟩
  simp only [executeCommand, h]
  rfl

/-- Witness for C4 at the all-whitespace input. -/
theorem c4_blank_submit_witness :
    (executeCommand env0 initState "   ").history =
      initState.history ++ [{ command := "", output := HELP_TEXT, timestamp := env0.now }] ∧
    jsStartsWith HELP_TEXT "Available commands:" = true :=
  c4_blank_submit_shows_help env0 initState "   " (by decide)

/-- C6: a submission whose trimmed text starts with `echo ` appends an
entry whose output is the text after the prefix, verbatim (internal
whitespace preserved). -/
theorem c6_echo_verbatim (env : Env) (st : TerminalState) (cmd : String)
    (h : jsStartsWith (jsTrim cmd) "echo " = true) :
    (executeCommand env st cmd).history =
      st.history ++
        [{ command := jsTrim cmd, output := jsDrop (jsTrim cmd) 5, timestamp := env.now }] := by
  have h0 : jsTrim cmd ≠ "" := by intro he; rw [he] at h; exact absurd h (by decide)
  have hc : jsTrim cmd ≠ "clear" := by intro he; rw [he] at h; exact absurd h (by decide)
  have hh : jsTrim cmd ≠ "help" := by intro he; rw [he] at h; exact absurd h (by decide)
  have hd : jsTrim cmd ≠ "date" := by intro he; rw [he] at h; exact absurd h (by decide)
  have hw : jsTrim cmd ≠ "whoami" := by intro he; rw [he] at h; exact absurd h (by decide)
  unfold executeCommand dispatch
  rw [if_neg h0, if_neg hc, if_neg hh, if_neg hd, if_neg hw, if_pos h]

/-- Witness for C6: `echo Hello World` echoes exactly `Hello World`. -/
theorem c6_echo_witness :
    (jsDrop (jsTrim "echo Hello World") 5 = "Hello World") ∧
    (executeCommand env0 initState "echo Hello World").history =
      initState.history ++
        [{ command := jsTrim "echo Hello World", output := jsDrop (jsTrim "echo Hello World") 5,
           timestamp := env0.now }] :=
  ⟨by decide, c6_echo_verbatim env0 initState "echo Hello World" (by decide)⟩

/-- C2 fails as stated: `clear` has non-empty trimmed text, yet the
submission appends no entry at all — it discards the history. -/
theorem c2_counterexample_clear :
    jsTrim "clear" = "clear" ∧ ("clear" : String) ≠ "" ∧
    (executeCommand env0 { initState with history := [sampleEntry] } "clear").history.length ≠
      ({ initState with history := [sampleEntry] } : TerminalState).history.length + 1 := by
  decide

/-- C2 amended: every submission whose trimmed text is non-empty and
neither `clear` nor `exit` appends exactly one entry, with the trimmed
text as command and the resolved output of the router as output. -/
theorem c2_submit_appends_amended (env : Env) (st : TerminalState) (cmd : String)
    (h0 : jsTrim cmd ≠ "") (h1 : jsTrim cmd ≠ "clear") (h2 : jsTrim cmd ≠ "exit") :
    ∃ out, dispatch env st.history (jsTrim cmd) = ExecAction.append out ∧
      (executeCommand env st cmd).history =
        st.history ++ [{ command := jsTrim cmd, output := out, timestamp := env.now }] := by
  obtain ⟨out, hout⟩ := dispatch_append env st.history (jsTrim cmd) h1 h2
  refine ⟨out, hout, ?_⟩
  unfold executeCommand
  rw [if_neg h0, hout]

/-- Witness for amended C2 at the local command `date`. -/
theorem c2_submit_appends_witness :
    ∃ out, dispatch env0 initState.history (jsTrim "date") = ExecAction.append out ∧
      (executeCommand env0 initState "date").history =
        initState.history ++ [{ command := jsTrim "date", output := out, timestamp := env0.now }] :=
  c2_submit_appends_amended env0 initState "date" (by decide) (by decide) (by decide)

/-- C5 fails as stated on a present-but-empty `detail`: a 500 response
whose detail is the empty string is mapped to the generic message, not
to `Error: ` followed by the detail. -/
theorem c5_counterexample_empty_detail :
    remoteOutput (RemoteOutcome.httpError 500 (some "")) = "Error: Internal server error" ∧
    remoteOutput (RemoteOutcome.httpError 500 (some "")) ≠ "Error: " ++ "" := by
  decide

/-- C5 amended: a backend-routed submission never escapes — it always
terminates in an appended entry whose output is a string; a 500
response with non-empty detail `d` yields `Error: d`, an absent or
empty detail yields `Error: Internal server error`, and a client-side
failure with non-empty transport message `m` yields `Error: m`
(an empty message falls back to `Error: Failed to connect to
server`). -/
theorem c5_error_strings_amended :
    (∀ (env : Env) (st : TerminalState) (cmd : String), isRemoteDispatch (jsTrim cmd) →
        (executeCommand env st cmd).history =
          st.history ++
            [{ command := jsTrim cmd, output := remoteOutput env.remote, timestamp := env.now }]) ∧
    (∀ d : String, d ≠ "" → remoteOutput (RemoteOutcome.httpError 500 (some d)) = "Error: " ++ d) ∧
    remoteOutput (RemoteOutcome.httpError 500 none) = "Error: Internal server error" ∧
    remoteOutput (RemoteOutcome.httpError 500 (some "")) = "Error: Internal server error" ∧
    (∀ m : String, m ≠ "" → remoteOutput (RemoteOutcome.networkError (some m)) = "Error: " ++ m) ∧
    remoteOutput (RemoteOutcome.networkError none) = "Error: Failed to connect to server" := by
  refine ⟨?_, ?_, by decide, by decide, ?_, by decide⟩
  · intro env st cmd h
    rw [executeCommand_remote env st cmd h]
  · intro d hd
    simp [remoteOutput, jsOrStr, hd]
  · intro m hm
    simp [remoteOutput, jsOrStr, hm]

/-- Witness for amended C5: a remote command, a 500 with detail, and a
network failure, at concrete inputs. -/
theorem c5_error_strings_witness :
    (executeCommand env500 initState "kubectl get pods").history =
      initState.history ++
        [{ command := jsTrim "kubectl get pods", output := remoteOutput env500.remote,
           timestamp := env500.now }] ∧
    remoteOutput (RemoteOutcome.httpError 500 (some "boom")) = "Error: " ++ "boom" ∧
    remoteOutput (RemoteOutcome.networkError (some "Network Error")) = "Error: " ++ "Network Error" :=
  ⟨c5_error_strings_amended.1 env500 initState "kubectl get pods" (by decide),
   c5_error_strings_amended.2.1 "boom" (by decide),
   c5_error_strings_amended.2.2.2.2.1 "Network Error" (by decide)⟩

/-- C10: when the backend response has falsy output (`null` or the
empty string), the appended entry records the response's error text if
that is truthy and the literal `Command executed` otherwise; the
recorded output is never the empty string. -/
theorem c10_falsy_output_fallback (env : Env) (st : TerminalState) (cmd : String)
    (out err : Option String)
    (hr : isRemoteDispatch (jsTrim cmd))
    (henv : env.remote = RemoteOutcome.success out err)
    (hout : out = none ∨ out = some "") :
    (executeCommand env st cmd).history =
      st.history ++
        [{ command := jsTrim cmd,
           output := if jsTruthy err then err.getD "" else "Command executed",
           timestamp := env.now }] ∧
    (if jsTruthy err then err.getD "" else "Command executed") ≠ "" := by
  constructor
  · rw [executeCommand_remote env st cmd hr, henv,
      remoteOutput_success_falsy out err hout]
  · cases err with
    | none => decide
    | some e =>
        by_cases he : e = "" <;> simp [jsTruthy, he]

/-- Witness for C10 at a backend response with null output and null
error. -/
theorem c10_falsy_output_witness :
    (executeCommand envNull initState "kubectl").history =
      initState.history ++
        [{ command := jsTrim "kubectl",
           output := if jsTruthy none then (none : Option String).getD "" else "Command executed",
           timestamp := envNull.now }] ∧
    (if jsTruthy none then (none : Option String).getD "" else "Command executed") ≠ "" :=
  c10_falsy_output_fallback envNull initState "kubectl" none none (by decide) rfl (Or.inl rfl)

/-- C9: the location-lookup command with no argument and no configured
default returns the two-line usage string as a successful result
(`error` is null), for every provider. -/
theorem c9_weather_usage_string (provider : String → Option String) :
    weatherCommand none none provider =
      { output := some "Usage: weather [location]\nExample: weather London", error := none } :=
  rfl
/-! ### Claim C3: ArrowUp navigation -/

/-- `ArrowUp` at the oldest command (index `0`) is a no-op. -/
theorem navigateUp_at_oldest (st : TerminalState) (hidx : st.historyIndex = 0) :
    navigateUp st = st := by
  unfold navigateUp
  rcases Nat.eq_zero_or_pos (nonEmptyCommands st.history).length with hlen | hlen
  · rw [if_pos hlen]
  rw [if_neg (by omega), if_neg (by rw [hidx]; decide), if_neg (by rw [hidx]; decide)]

/-- `ArrowUp` while not navigating jumps to the newest command. -/
theorem navigateUp_fresh (st : TerminalState)
    (hlen : (nonEmptyCommands st.history).length ≠ 0)
    (hidx : st.historyIndex = -1) :
    navigateUp st =
      { st with
          historyIndex := (((nonEmptyCommands st.history).length - 1 : Nat) : Int),
          currentInput :=
            (nonEmptyCommands st.history).getD ((nonEmptyCommands st.history).length - 1) "" } := by
  unfold navigateUp
  rw [if_neg hlen, if_pos hidx,
    show ((nonEmptyCommands st.history).length : Int) - 1 =
      (((nonEmptyCommands st.history).length - 1 : Nat) : Int) by omega]

/-- `ArrowUp` at a positive index moves one step older and loads that
command. -/
theorem navigateUp_at_pos (st : TerminalState) (m : Nat)
    (h0 : 0 < m) (hm : m < (nonEmptyCommands st.history).length)
    (hidx : st.historyIndex = (m : Int)) :
    navigateUp st =
      { st with historyIndex := ((m - 1 : Nat) : Int),
                currentInput := (nonEmptyCommands st.history).getD (m - 1) "" } := by
  unfold navigateUp
  simp only [hidx]
  rw [if_neg (by omega), if_neg (by omega), if_pos (by exact_mod_cast h0),
    show ((m : Int) - 1).toNat = m - 1 by omega,
    show (m : Int) - 1 = ((m - 1 : Nat) : Int) by omega]

/-- Iterating `ArrowUp` from index `m` walks down to index `m - k`. -/
theorem navigateUp_iter (k : Nat) : ∀ (st : TerminalState) (m : Nat),
    m < (nonEmptyCommands st.history).length → k ≤ m →
    st.historyIndex = (m : Int) →
    st.currentInput = (nonEmptyCommands st.history).getD m "" →
    navigateUp^[k] st =
      { st with historyIndex := ((m - k : Nat) : Int),
                currentInput := (nonEmptyCommands st.history).getD (m - k) "" } := by
  induction k with
  | zero =>
      intro st m hm hk hidx hinput
      simp only [Function.iterate_zero, id_eq, Nat.sub_zero]
      rw [← hidx, ← hinput]
  | succ k ih =>
      intro st m hm hk hidx hinput
      rw [Function.iterate_succ_apply,
        navigateUp_at_pos st m (by omega) hm hidx]
      have := ih { st with historyIndex := ((m - 1 : Nat) : Int),
                           currentInput := (nonEmptyCommands st.history).getD (m - 1) "" }
        (m - 1) (show m - 1 < (nonEmptyCommands st.history).length by omega)
        (by omega) rfl rfl
      rw [this, show m - 1 - k = m - (k + 1) by omega]

/-- C3: for a history with `N ≥ 1` non-empty commands, `N` ArrowUp
presses from a fresh buffer land on the oldest command (cursor `0`),
and an `(N+1)`-th press changes neither buffer nor cursor. -/
theorem c3_arrow_up_lands_oldest (st : TerminalState) (N : Nat)
    (hN : (nonEmptyCommands st.history).length = N) (h1 : 1 ≤ N)
    (hidx : st.historyIndex = -1) :
    (navigateUp^[N] st).currentInput = (nonEmptyCommands st.history).getD 0 "" ∧
    (navigateUp^[N] st).historyIndex = 0 ∧
    navigateUp (navigateUp^[N] st) = navigateUp^[N] st := by
  obtain ⟨M, rfl⟩ : ∃ M, N = M + 1 := ⟨N - 1, by omega⟩
  have hm : (nonEmptyCommands st.history).length - 1 = M := by omega
  have hfresh := navigateUp_fresh st (by omega) hidx
  rw [hm] at hfresh
  have hiter := navigateUp_iter M
    { st with historyIndex := ((M : Nat) : Int),
              currentInput := (nonEmptyCommands st.history).getD M "" } M
    (show M < (nonEmptyCommands st.history).length by omega) (le_refl M) rfl rfl
  have hrun : navigateUp^[M + 1] st =
      { st with historyIndex := ((M - M : Nat) : Int),
                currentInput := (nonEmptyCommands st.history).getD (M - M) "" } := by
    rw [Function.iterate_succ_apply, hfresh, hiter]
  rw [Nat.sub_self] at hrun
  refine ⟨by rw [hrun], by rw [hrun]; rfl, ?_⟩
  rw [hrun]
  exact navigateUp_at_oldest _ rfl

/-- Witness for C3 on a history with two real commands (and a
synthetic help entry between them): two presses land on `alpha`. -/
theorem c3_arrow_up_witness :
    (navigateUp^[2] navSt).currentInput = (nonEmptyCommands navSt.history).getD 0 "" ∧
    (navigateUp^[2] navSt).historyIndex = 0 ∧
    navigateUp (navigateUp^[2] navSt) = navigateUp^[2] navSt :=
  c3_arrow_up_lands_oldest navSt 2 (by decide) (by decide) (by decide)
/-! ### Claim C8: the cursor invariant -/

/-- Every UI step preserves the cursor invariant. -/
theorem cursorOK_uiStep (e : UIEvent) (st : TerminalState) (h : cursorOK st) :
    cursorOK (uiStep e st) := by
  cases e with
  | input s => exact h
  | ctrlL => exact h
  | enter env => exact Or.inl rfl
  | up =>
      unfold uiStep navigateUp
      rcases Nat.eq_zero_or_pos (nonEmptyCommands st.history).length with hlen | hlen
      · rw [if_pos hlen]; exact h
      rw [if_neg (by omega)]
      by_cases hneg : st.historyIndex = -1
      · rw [if_pos hneg]
        right
        constructor
        · show (0 : Int) ≤ ((nonEmptyCommands st.history).length : Int) - 1
          omega
        · show ((nonEmptyCommands st.history).length : Int) - 1 <
            ((nonEmptyCommands st.history).length : Int)
          omega
      rw [if_neg hneg]
      rcases h with h | ⟨ha, hb⟩
      · exact absurd h hneg
      by_cases hpos : st.historyIndex > 0
      · rw [if_pos hpos]
        right
        refine ⟨?_, ?_⟩
        · show (0 : Int) ≤ st.historyIndex - 1
          omega
        · show st.historyIndex - 1 < ((nonEmptyCommands st.history).length : Int)
          omega
      · rw [if_neg hpos]
        exact Or.inr ⟨ha, hb⟩
  | down =>
      unfold uiStep navigateDown
      by_cases hfirst : (nonEmptyCommands st.history).length = 0 ∨ st.historyIndex = -1
      · rw [if_pos hfirst]; exact h
      rw [if_neg hfirst]
      rcases h with h | ⟨ha, hb⟩
      · exact absurd (Or.inr h) hfirst
      by_cases hlt : st.historyIndex < ((nonEmptyCommands st.history).length : Int) - 1
      · rw [if_pos hlt]
        right
        refine ⟨?_, ?_⟩
        · show (0 : Int) ≤ st.historyIndex + 1
          omega
        · show st.historyIndex + 1 < ((nonEmptyCommands st.history).length : Int)
          omega
      · rw [if_neg hlt]
        exact Or.inl rfl

/-- Runs of UI events preserve the cursor invariant. -/
theorem cursorOK_uiRun (es : List UIEvent) : ∀ (st : TerminalState),
    cursorOK st → cursorOK (uiRun es st) := by
  induction es with
  | nil => intro st h; exact h
  | cons e rest ih => intro st h; exact ih (uiStep e st) (cursorOK_uiStep e st h)

/-- C8: in every state reachable from the initial state by keystrokes,
history navigation and submissions, a non-negative cursor points into
the sequence of non-empty commands (so it never references the
synthetic empty-command help entry and never exceeds their count minus
one). -/
theorem c8_cursor_in_range (es : List UIEvent)
    (h : 0 ≤ (uiRun es initState).historyIndex) :
    (uiRun es initState).historyIndex <
      ((nonEmptyCommands (uiRun es initState).history).length : Int) := by
  rcases cursorOK_uiRun es initState (Or.inl rfl) with hc | ⟨_, hc⟩
  · omega
  · exact hc

/-- Witness for C8: type `ls`, submit it, press ArrowUp: the cursor is
`0` and points at the single real command. -/
theorem c8_cursor_witness :
    (uiRun [UIEvent.input "ls", UIEvent.enter env0, UIEvent.up] initState).historyIndex <
      ((nonEmptyCommands
        (uiRun [UIEvent.input "ls", UIEvent.enter env0, UIEvent.up] initState).history).length : Int) :=
  c8_cursor_in_range [UIEvent.input "ls", UIEvent.enter env0, UIEvent.up] (by decide)
/-! ### Claim C7: persistence round trip -/

/-- Digit characters round-trip to their digit. -/
theorem charDigit_digitChar : ∀ k, k < 10 → charDigit (digitChar k) = k := by decide

/-- Digit characters are digits. -/
theorem isDigit_digitChar : ∀ k, k < 10 → (digitChar k).isDigit = true := by decide

/-- Digit characters of reduced digits round-trip, unconditionally. -/
theorem charDigit_digitChar_mod (n : Nat) : charDigit (digitChar (n % 10)) = n % 10 :=
  charDigit_digitChar _ (Nat.mod_lt _ (by norm_num))

/-- Digit characters of reduced digits are digits, unconditionally. -/
theorem isDigit_digitChar_mod (n : Nat) : (digitChar (n % 10)).isDigit = true :=
  isDigit_digitChar _ (Nat.mod_lt _ (by norm_num))

/-- Printing a valid instant with `toISOString` and parsing it back
with the `Date` constructor restores the instant exactly. -/
theorem parseISO_toISOString (d : DateTime) (h : validDateTime d) :
    parseISO (toISOString d) = some d := by
  obtain ⟨y, mo, dy, hr, mi, se, ms⟩ := d
  obtain ⟨h1, h2, h3, h4, h5, h6, h7, h8, h9⟩ := h
  have hy : y < 10000 := h1
  have hmo : mo ≤ 12 := h3
  have hdy : dy ≤ 31 := h5
  have hhr : hr < 24 := h6
  have hmi : mi < 60 := h7
  have hse : se < 60 := h8
  have hms : ms < 1000 := h9
  show parseISOChars (isoChars ⟨y, mo, dy, hr, mi, se, ms⟩) = _
  simp only [isoChars, pad4, pad3, pad2, List.cons_append, List.nil_append]
  rw [parseISOChars]
  simp only [List.all_cons, List.all_nil, isDigit_digitChar_mod, Bool.and_self, Bool.and_true,
    if_pos rfl, charDigit_digitChar_mod]
  rw [show (y / 1000 % 10 * 10 + y / 100 % 10) * 10 + y / 10 % 10 = y / 10 by omega]
  rw [show y / 10 * 10 + y % 10 = y by omega]
  rw [show mo / 10 % 10 * 10 + mo % 10 = mo by omega]
  rw [show dy / 10 % 10 * 10 + dy % 10 = dy by omega]
  rw [show hr / 10 % 10 * 10 + hr % 10 = hr by omega]
  rw [show mi / 10 % 10 * 10 + mi % 10 = mi by omega]
  rw [show se / 10 % 10 * 10 + se % 10 = se by omega]
  rw [show (ms / 100 % 10 * 10 + ms / 10 % 10) * 10 + ms % 10 = ms by omega]
  rw [if_pos (show validDateTime ⟨y, mo, dy, hr, mi, se, ms⟩ from
    ⟨h1, h2, h3, h4, h5, h6, h7, h8, h9⟩), if_true]

/-- C7: serializing a history to its persisted records and
deserializing it back preserves every entry — `command` and `output`
verbatim, and the timestamp through its ISO-8601 image — for every
history of valid instants. -/
theorem c7_persist_roundtrip (hist : List HistoryEntry)
    (h : ∀ e ∈ hist, validDateTime e.timestamp) :
    loadHistory (persistHistory hist) = hist := by
  induction hist with
  | nil => rfl
  | cons e rest ih =>
      have he : validDateTime e.timestamp := h e (List.mem_cons_self e rest)
      have hrest := ih (fun x hx => h x (List.mem_cons_of_mem e hx))
      have hhead : (parseISO (toISOString e.timestamp)).getD invalidDate = e.timestamp := by
        rw [parseISO_toISOString e.timestamp he, Option.getD_some]
      calc loadHistory (persistHistory (e :: rest))
          = { command := e.command, output := e.output,
              timestamp := (parseISO (toISOString e.timestamp)).getD invalidDate } ::
              loadHistory (persistHistory rest) := rfl
        _ = e :: rest := by rw [hhead, hrest]

/-- Witness for C7 on a two-entry history. -/
theorem c7_persist_witness :
    loadHistory (persistHistory [sampleEntry,
      { command := "", output := HELP_TEXT, timestamp := sampleDateLater }]) =
      [sampleEntry, { command := "", output := HELP_TEXT, timestamp := sampleDateLater }] :=
  c7_persist_roundtrip _ (by decide)
/-! ### Claim C1: ordering under overlapping submissions -/

/-- C1 fails as stated: two backend-routed lines submitted in order,
both still outstanding, whose calls resolve in the opposite order, are
appended in resolution order — the second-submitted command's entry
precedes the first's. -/
theorem c1_counterexample_completion_order :
    isRemoteDispatch (jsTrim "aaa") ∧ isRemoteDispatch (jsTrim "bbb") ∧
    (sessionRun
        [SessionEvent.submit envA "aaa", SessionEvent.submit envB "bbb",
         SessionEvent.resolve 1 sampleDate, SessionEvent.resolve 0 sampleDateLater]
        initSession).term.history.map (fun h => h.command) = ["bbb", "aaa"] := by
  decide

/-- C1 amended: a backend-routed submission appends nothing at
submission time; the entry of an in-flight call is appended at the
moment that call resolves — so entries of overlapping remote
submissions land in the order the calls resolve, which coincides with
submission order only when completions happen in submission order. -/
theorem c1_resolution_order_amended :
    (∀ (env : Env) (cmd : String) (s : SessionState), isRemoteDispatch (jsTrim cmd) →
        (submitStep env cmd s).term = s.term) ∧
    (∀ (s : SessionState) (p : PendingCall) (t : DateTime),
        s.pending.find? (fun q => q.id = p.id) = some p →
        (resolveStep p.id t s).term.history =
          s.term.history ++
            [{ command := p.command, output := remoteOutput p.outcome, timestamp := t }]) := by
  constructor
  · intro env cmd s h
    unfold submitStep
    rw [if_pos h]
  · intro s p t hfind
    unfold resolveStep
    rw [hfind]

/-- Witness for amended C1 at a concrete submission and a concrete
resolution. -/
theorem c1_resolution_order_witness :
    (submitStep envA "aaa" initSession).term = initSession.term ∧
    (resolveStep 7 sampleDate
        { term := initState,
          pending := [{ id := 7, command := "bbb", outcome := envB.remote }],
          nextId := 8 }).term.history =
      initState.history ++
        [{ command := "bbb", output := remoteOutput envB.remote, timestamp := sampleDate }] :=
  ⟨c1_resolution_order_amended.1 envA "aaa" initSession (by decide),
   c1_resolution_order_amended.2
     { term := initState,
       pending := [{ id := 7, command := "bbb", outcome := envB.remote }], nextId := 8 }
     { id := 7, command := "bbb", outcome := envB.remote } sampleDate (by decide)⟩

end Terminal
